import Mathlib

/-!
Verification development for the beta-turn classification engine of
`Identify_18_BetaTurn_Types.py` (Shapovalov, Vucetic, Dunbrack 2019).

The Python source is shallowly embedded: pure float arithmetic becomes real
arithmetic, the 18-entry turn library becomes a list of structures with exact
rational medoid coordinates, the per-window gate and classifier of `main`
become total Lean functions, and the external `Bio.PDB.calc_dihedral`
routine (not part of this repository) is abstracted as a function parameter.
Descriptive library fields that the decision logic never reads
(mode statistics, exemplar PDB ids, amino-acid patterns) are omitted.
-/

/-- 3-D coordinate of an atom, as produced by Biopython `get_vector()`. -/
def V3 : Type := ℝ × ℝ × ℝ

/-- Componentwise difference of two vectors (Biopython `Vector.__sub__`). -/
def vsub (a b : V3) : V3 := (a.1 - b.1, a.2.1 - b.2.1, a.2.2 - b.2.2)

/-- Euclidean norm of a vector (Biopython `Vector.norm`). -/
noncomputable def norm3 (a : V3) : ℝ :=
  Real.sqrt (a.1 * a.1 + a.2.1 * a.2.1 + a.2.2 * a.2.2)

/-- Source `math.radians`: degrees to radians. -/
noncomputable def radians (x : ℝ) : ℝ := x * Real.pi / 180

/-- Source `math.degrees`: radians to degrees. -/
noncomputable def degrees (x : ℝ) : ℝ := x * 180 / Real.pi

/-- Idealised `round(x, 6)`: round to six decimal digits. -/
noncomputable def round6 (x : ℝ) : ℝ := (round (x * 1000000) : ℤ) / 1000000

/-- Source `TURN_DIST_CUTOFF`: acceptance cutoff on the mean per-angle distance. -/
noncomputable def TURN_DIST_CUTOFF : ℝ := 0.2359

/-- Source `angle_distance`: `2*(1 - cos(radians(angle1 - angle2)))`. -/
noncomputable def angle_distance (angle1 angle2 : ℝ) : ℝ :=
  2 * (1 - Real.cos (radians (angle1 - angle2)))

/-- The `ValueError` message raised by `find_theta_in_degrees`. -/
def thetaErrMsg : String := "D must be in the range [0, 4] for a real solution."

/-- Source `find_theta_in_degrees(D)`: raises (modelled as `Except.error`) when
`D < 0 or D > 4`, otherwise returns `degrees(acos(1 - D/2))`. -/
noncomputable def find_theta_in_degrees (D : ℝ) : Except String ℝ :=
  if D < 0 ∨ D > 4 then Except.error thetaErrMsg
  else Except.ok (degrees (Real.arccos (1 - D / 2)))

/-- One entry of the 18-cluster turn library (`define_turn_library`).
Only the fields the program's decision and reporting logic reads are kept:
the legacy name and the seven medoid dihedral coordinates, stored as the
exact rationals written in the source. -/
structure TurnClusterDef where
  prev_name : String
  medoid_omega2 : ℚ
  medoid_phi2 : ℚ
  medoid_psi2 : ℚ
  medoid_omega3 : ℚ
  medoid_phi3 : ℚ
  medoid_psi3 : ℚ
  medoid_omega4 : ℚ
deriving DecidableEq

/-- Source `define_turn_library()`: the 18 turn types, in the insertion order of the
Python dict (which is the iteration order of the classifier loop). -/
def define_turn_library : List (String × TurnClusterDef) :=
  [ ("AD", ⟨"I", 184.88, -65.27, -23.52, 182.83, -98.73, -18.06, 181.10⟩)
  , ("Pd", ⟨"II", 178.69, -55.28, 132.76, 175.53, 82.38, -2.88, 179.60⟩)
  , ("Pa", ⟨"new_prev_II", 180.97, -79.76, 149.11, 170.92, 61.47, 32.21, 180.14⟩)
  , ("ad", ⟨"I\x27", 177.14, 54.08, 37.14, 174.19, 77.07, 7.66, 182.45⟩)
  , ("AB1", ⟨"new_prev_VIII", 178.29, -76.75, -33.07, 180.05, -137.67, 155.99, 179.53⟩)
  , ("AZ", ⟨"new_prev_VIII", 181.51, -83.81, -17.76, 182.70, -128.88, 61.72, 177.81⟩)
  , ("AB2", ⟨"VIII", 179.88, -76.37, -33.97, 184.30, -116.48, 120.10, 183.38⟩)
  , ("pD", ⟨"II\x27", 177.42, 56.16, -135.60, 183.17, -90.92, 4.81, 180.04⟩)
  , ("AG", ⟨"new_prev_VIII", 184.32, -71.78, -15.84, 187.19, -87.70, 74.65, 181.63⟩)
  , ("BcisP", ⟨"VIb", 176.27, -127.05, 120.42, 358.00, -65.63, 161.27, 182.14⟩)
  , ("dD", ⟨"new", 182.57, 99.89, -17.34, 185.02, -113.78, 9.87, 180.65⟩)
  , ("PcisD", ⟨"VIa1", 175.04, -59.70, 144.37, 9.21, -92.77, 8.32, 175.56⟩)
  , ("dN", ⟨"new", 178.53, 76.06, -3.15, 179.31, -122.82, -50.46, 179.84⟩)
  , ("Dd", ⟨"new", 177.54, -99.08, 19.56, 173.80, 108.72, -14.53, 182.16⟩)
  , ("PcisP", ⟨"new_prev_VIb", 183.55, -78.86, 145.45, 353.82, -78.06, 140.34, 178.16⟩)
  , ("cisDA", ⟨"new", 0.14, -97.53, 3.93, 184.13, -66.86, -35.89, 182.02⟩)
  , ("pG", ⟨"new", 188.70, 68.28, -139.60, 178.07, -79.92, 121.91, 175.54⟩)
  , ("cisDP", ⟨"new", 11.10, -86.47, 4.44, 169.99, -71.39, 157.80, 175.12⟩)
  ]

/-- Binding `turnlibrary = define_turn_library()` in `main`. -/
def turnlibrary : List (String × TurnClusterDef) := define_turn_library

/-- The seven dihedral values of a candidate window, in the order the
classifier reads them: `omega2, phi2, psi2, omega3, phi3, psi3, omega4`. -/
structure Window where
  omega2 : ℝ
  phi2 : ℝ
  psi2 : ℝ
  omega3 : ℝ
  phi3 : ℝ
  psi3 : ℝ
  omega4 : ℝ

/-- The window whose seven angles equal a cluster's medoid exactly. -/
noncomputable def windowOf (m : TurnClusterDef) : Window :=
  { omega2 := (m.medoid_omega2 : ℝ), phi2 := (m.medoid_phi2 : ℝ)
  , psi2 := (m.medoid_psi2 : ℝ), omega3 := (m.medoid_omega3 : ℝ)
  , phi3 := (m.medoid_phi3 : ℝ), psi3 := (m.medoid_psi3 : ℝ)
  , omega4 := (m.medoid_omega4 : ℝ) }

/-- The per-cluster score `D` of the classifier loop: the mean of the seven
per-angle distances between the window and the cluster medoid. -/
noncomputable def meanD (w : Window) (m : TurnClusterDef) : ℝ :=
  (angle_distance w.omega2 (m.medoid_omega2 : ℝ) +
   angle_distance w.phi2 (m.medoid_phi2 : ℝ) +
   angle_distance w.psi2 (m.medoid_psi2 : ℝ) +
   angle_distance w.omega3 (m.medoid_omega3 : ℝ) +
   angle_distance w.phi3 (m.medoid_phi3 : ℝ) +
   angle_distance w.psi3 (m.medoid_psi3 : ℝ) +
   angle_distance w.omega4 (m.medoid_omega4 : ℝ)) / 7

/-- The classifier loop body: fold over the library keeping the strictly
smaller score (`if D < minD`), so the first encountered minimum wins. -/
noncomputable def scanTurns (w : Window) :
    List (String × TurnClusterDef) → ℝ × String → ℝ × String
  | [], acc => acc
  | (name, m) :: rest, acc =>
      if meanD w m < acc.1 then scanTurns w rest (meanD w m, name)
      else scanTurns w rest acc

/-- The classifier: `minD = 100.0` initially, `minturn` initially unbound in
the source (modelled by the empty string; the first iteration always
overwrites it because every score is at most 4). -/
noncomputable def classify (w : Window) : ℝ × String :=
  scanTurns w turnlibrary (100, "")

/-- The accept/emit decision of the classifier: a result is produced exactly
when `minD <= TURN_DIST_CUTOFF`; otherwise nothing is emitted. -/
noncomputable def classifyEmit (w : Window) : Option (ℝ × String) :=
  if (classify w).1 ≤ TURN_DIST_CUTOFF then some (classify w) else none

/-- The type of the external `Bio.PDB.calc_dihedral` routine: a signed
dihedral angle, in radians, of four atom positions. The routine is not part
of this repository, so the embedding treats it as an arbitrary function. -/
def Dih : Type := V3 → V3 → V3 → V3 → ℝ

/-- A parsed amino-acid residue together with its DSSP annotation, as
consumed by the feature-table assembly in `main`: author sequence number
(`res.id[1]`), the optional backbone atoms N, CA, C, the one-character
secondary-structure code (with the default `C` already applied), and the
raw `helix_3_10` marker field. -/
structure RawResidue where
  seqnum : ℤ
  atomN : Option V3
  atomCA : Option V3
  atomC : Option V3
  dssp_ss : Char
  three10 : List Char

instance : Inhabited RawResidue := ⟨⟨0, none, none, none, 'C', []⟩⟩

/-- Source `compute_phi`: sentinel `999.0` unless `prev` has atom C, `curr` has
atoms N, CA, C, and `curr.id[1] == prev.id[1] + 1`; otherwise the rounded
dihedral over `(prev.C, curr.N, curr.CA, curr.C)` in degrees. -/
noncomputable def compute_phi (dih : Dih) (prev curr : RawResidue) : ℝ :=
  match prev.atomC, curr.atomN, curr.atomCA, curr.atomC with
  | some prev_c, some curr_n, some curr_a, some curr_c =>
      if curr.seqnum = prev.seqnum + 1 then
        round6 (degrees (dih prev_c curr_n curr_a curr_c))
      else 999
  | _, _, _, _ => 999

/-- Source `compute_psi`: sentinel `999.0` unless `curr` has atoms N, CA, C, `next`
has atom N, and `next.id[1] == curr.id[1] + 1`; otherwise the rounded
dihedral over `(curr.N, curr.CA, curr.C, next.N)` in degrees. -/
noncomputable def compute_psi (dih : Dih) (curr next : RawResidue) : ℝ :=
  match curr.atomN, curr.atomCA, curr.atomC, next.atomN with
  | some curr_n, some curr_a, some curr_c, some next_n =>
      if next.seqnum = curr.seqnum + 1 then
        round6 (degrees (dih curr_n curr_a curr_c next_n))
      else 999
  | _, _, _, _ => 999

/-- Source `compute_omega`: sentinel `999.0` unless `prev` has atoms CA, C, `curr`
has atoms N, CA, and `curr.id[1] == prev.id[1] + 1`; otherwise the rounded
dihedral over `(prev.CA, prev.C, curr.N, curr.CA)` in degrees. -/
noncomputable def compute_omega (dih : Dih) (prev curr : RawResidue) : ℝ :=
  match prev.atomCA, prev.atomC, curr.atomN, curr.atomCA with
  | some prev_ca, some prev_c, some curr_n, some curr_a =>
      if curr.seqnum = prev.seqnum + 1 then
        round6 (degrees (dih prev_ca prev_c curr_n curr_a))
      else 999
  | _, _, _, _ => 999

/-- One row of the per-chain residue feature table built by `main`
(the dict appended to `datadict[chain1]`), restricted to the fields the
window scan reads.  The unused legacy chi angles are omitted. -/
structure ResidueRecord where
  resnum : ℤ
  omega : ℝ
  phi : ℝ
  psi : ℝ
  dssp_ss : Char
  three10 : List Char
  CAcoor : Option V3

/-- The `phi` entry of table row `i`: computed from rows `i-1, i` only when
`i > 0` (first residue keeps the sentinel initialiser `999.0`). -/
noncomputable def entryPhi (dih : Dih) (rs : List RawResidue) (i : ℕ) : ℝ :=
  if i = 0 then 999 else
  match rs.get? (i - 1), rs.get? i with
  | some p, some c => compute_phi dih p c
  | _, _ => 999

/-- The `omega` entry of table row `i`: computed from rows `i-1, i` only
when `i > 0`. -/
noncomputable def entryOmega (dih : Dih) (rs : List RawResidue) (i : ℕ) : ℝ :=
  if i = 0 then 999 else
  match rs.get? (i - 1), rs.get? i with
  | some p, some c => compute_omega dih p c
  | _, _ => 999

/-- The `psi` entry of table row `i`: computed from rows `i, i+1` only when
`i + 1 < len(aa_residues)`. -/
noncomputable def entryPsi (dih : Dih) (rs : List RawResidue) (i : ℕ) : ℝ :=
  match rs.get? i, rs.get? (i + 1) with
  | some c, some n => compute_psi dih c n
  | _, _ => 999

/-- Row `i` of the residue feature table for a chain. -/
noncomputable def tableRec (dih : Dih) (rs : List RawResidue) (i : ℕ) :
    ResidueRecord :=
  { resnum := (rs.getD i default).seqnum
  , omega := entryOmega dih rs i
  , phi := entryPhi dih rs i
  , psi := entryPsi dih rs i
  , dssp_ss := (rs.getD i default).dssp_ss
  , three10 := (rs.getD i default).three10
  , CAcoor := (rs.getD i default).atomCA }

/-- Lookup `turnlibrary[minturn]_prev_name` in the emission line. -/
def prevNameOf (n : String) : String :=
  match turnlibrary.find? (fun p => p.1 = n) with
  | some p => p.2.prev_name
  | none => ""

/-- The output record printed for an accepted turn (the fields of the
`print` line that the core computes; reporting-only fields such as the
one-letter sequence and the source-file tag are omitted). -/
structure OutRec where
  resnum1 : ℤ
  resnum4 : ℤ
  minturn : String
  prevname : String
  minD : ℝ
  mintheta : Except String ℝ
  ca_dist : ℝ
  window : Window

/-- The body of the window-scan loop of `main` for one candidate window
(rows `i..i+3` of the feature table): the sequential gate checks with the
source's `continue` statements modelled as early `none`, followed by the
classifier and the acceptance test.  Mirrors source order: CA presence,
secondary-structure string rejections, middle-residue H/E rejections, the
GGG / helix_3_10 disambiguation, the seven sentinel checks, and finally the
CA1-CA4 distance check. -/
noncomputable def processWindow (r1 r2 r3 r4 : ResidueRecord) : Option OutRec :=
  match r1.CAcoor, r4.CAcoor with
  | some vector1, some vector4 =>
    if [r1.dssp_ss, r2.dssp_ss, r3.dssp_ss, r4.dssp_ss] = ['H', 'G', 'G', 'G'] then none
    else if [r1.dssp_ss, r2.dssp_ss, r3.dssp_ss, r4.dssp_ss] = ['G', 'G', 'G', 'H'] then none
    else if [r1.dssp_ss, r2.dssp_ss, r3.dssp_ss, r4.dssp_ss] = ['G', 'G', 'G', 'G'] then none
    else if r2.dssp_ss = 'H' ∨ r2.dssp_ss = 'E' then none
    else if r3.dssp_ss = 'H' ∨ r3.dssp_ss = 'E' then none
    else if ([r1.dssp_ss, r2.dssp_ss, r3.dssp_ss, r4.dssp_ss].take 3 = ['G', 'G', 'G'] ∨
             [r1.dssp_ss, r2.dssp_ss, r3.dssp_ss, r4.dssp_ss].drop 1 = ['G', 'G', 'G']) ∧
            '3' ∉ r1.three10 ++ r2.three10 ++ r3.three10 ++ r4.three10 then none
    else if r2.omega = 999 then none
    else if r2.phi = 999 then none
    else if r2.psi = 999 then none
    else if r3.omega = 999 then none
    else if r3.phi = 999 then none
    else if r3.psi = 999 then none
    else if r4.omega = 999 then none
    else if norm3 (vsub vector1 vector4) > 7 then none
    else if (classify ⟨r2.omega, r2.phi, r2.psi, r3.omega, r3.phi, r3.psi, r4.omega⟩).1 ≤
        TURN_DIST_CUTOFF then
      some { resnum1 := r1.resnum, resnum4 := r1.resnum + 3
           , minturn := (classify ⟨r2.omega, r2.phi, r2.psi, r3.omega, r3.phi, r3.psi, r4.omega⟩).2
           , prevname :=
               prevNameOf (classify ⟨r2.omega, r2.phi, r2.psi, r3.omega, r3.phi, r3.psi, r4.omega⟩).2
           , minD := (classify ⟨r2.omega, r2.phi, r2.psi, r3.omega, r3.phi, r3.psi, r4.omega⟩).1
           , mintheta := find_theta_in_degrees
               (classify ⟨r2.omega, r2.phi, r2.psi, r3.omega, r3.phi, r3.psi, r4.omega⟩).1
           , ca_dist := norm3 (vsub vector1 vector4)
           , window := ⟨r2.omega, r2.phi, r2.psi, r3.omega, r3.phi, r3.psi, r4.omega⟩ }
    else none
  | _, _ => none

/-- The full scan of one chain: windows at all start indices `0..len-4`,
accepted ones emitted in order. -/
noncomputable def scanChain (dih : Dih) (rs : List RawResidue) : List OutRec :=
  (List.range (rs.length - 3)).filterMap (fun i =>
    processWindow (tableRec dih rs i) (tableRec dih rs (i + 1))
      (tableRec dih rs (i + 2)) (tableRec dih rs (i + 3)))

/-- The gate as a single predicate, conjuncts listed in the order the
implementation evaluates its checks (CA1-CA4 distance last). -/
def gateCodeOrder (r1 r2 r3 r4 : ResidueRecord) : Prop :=
  ∃ vector1 vector4, r1.CAcoor = some vector1 ∧ r4.CAcoor = some vector4 ∧
    [r1.dssp_ss, r2.dssp_ss, r3.dssp_ss, r4.dssp_ss] ≠ ['H', 'G', 'G', 'G'] ∧
    [r1.dssp_ss, r2.dssp_ss, r3.dssp_ss, r4.dssp_ss] ≠ ['G', 'G', 'G', 'H'] ∧
    [r1.dssp_ss, r2.dssp_ss, r3.dssp_ss, r4.dssp_ss] ≠ ['G', 'G', 'G', 'G'] ∧
    ¬(r2.dssp_ss = 'H' ∨ r2.dssp_ss = 'E') ∧
    ¬(r3.dssp_ss = 'H' ∨ r3.dssp_ss = 'E') ∧
    ¬(([r1.dssp_ss, r2.dssp_ss, r3.dssp_ss, r4.dssp_ss].take 3 = ['G', 'G', 'G'] ∨
       [r1.dssp_ss, r2.dssp_ss, r3.dssp_ss, r4.dssp_ss].drop 1 = ['G', 'G', 'G']) ∧
      '3' ∉ r1.three10 ++ r2.three10 ++ r3.three10 ++ r4.three10) ∧
    r2.omega ≠ 999 ∧ r2.phi ≠ 999 ∧ r2.psi ≠ 999 ∧
    r3.omega ≠ 999 ∧ r3.phi ≠ 999 ∧ r3.psi ≠ 999 ∧ r4.omega ≠ 999 ∧
    ¬(norm3 (vsub vector1 vector4) > 7)

/-- Modelled from the spec: the same six gate checks, conjuncts listed in
the order the specification states them — Cα presence first, the Cα1-Cα4
distance bound second, then the secondary-structure rejections, the
middle-residue H/E exclusion, the GGG disambiguation, and the sentinel
checks last. -/
def gateSpecOrder (r1 r2 r3 r4 : ResidueRecord) : Prop :=
  ∃ vector1 vector4, r1.CAcoor = some vector1 ∧ r4.CAcoor = some vector4 ∧
    norm3 (vsub vector1 vector4) ≤ 7 ∧
    [r1.dssp_ss, r2.dssp_ss, r3.dssp_ss, r4.dssp_ss] ≠ ['H', 'G', 'G', 'G'] ∧
    [r1.dssp_ss, r2.dssp_ss, r3.dssp_ss, r4.dssp_ss] ≠ ['G', 'G', 'G', 'H'] ∧
    [r1.dssp_ss, r2.dssp_ss, r3.dssp_ss, r4.dssp_ss] ≠ ['G', 'G', 'G', 'G'] ∧
    ¬(r2.dssp_ss = 'H' ∨ r2.dssp_ss = 'E') ∧
    ¬(r3.dssp_ss = 'H' ∨ r3.dssp_ss = 'E') ∧
    ¬(([r1.dssp_ss, r2.dssp_ss, r3.dssp_ss, r4.dssp_ss].take 3 = ['G', 'G', 'G'] ∨
       [r1.dssp_ss, r2.dssp_ss, r3.dssp_ss, r4.dssp_ss].drop 1 = ['G', 'G', 'G']) ∧
      '3' ∉ r1.three10 ++ r2.three10 ++ r3.three10 ++ r4.three10) ∧
    r2.omega ≠ 999 ∧ r2.phi ≠ 999 ∧ r2.psi ≠ 999 ∧
    r3.omega ≠ 999 ∧ r3.phi ≠ 999 ∧ r3.psi ≠ 999 ∧ r4.omega ≠ 999

/-- The seven window dihedrals read from four feature-table rows. -/
def windowOfRecs (_r1 r2 r3 r4 : ResidueRecord) : Window :=
  ⟨r2.omega, r2.phi, r2.psi, r3.omega, r3.phi, r3.psi, r4.omega⟩

lemma angle_distance_comm (a b : ℝ) : angle_distance a b = angle_distance b a := by
  simp only [angle_distance, radians]
  rw [show (b - a) * Real.pi / 180 = -((a - b) * Real.pi / 180) by ring, Real.cos_neg]

lemma angle_distance_self (a : ℝ) : angle_distance a a = 0 := by
  simp [angle_distance, radians]

lemma angle_distance_nonneg (a b : ℝ) : 0 ≤ angle_distance a b := by
  have h := Real.cos_le_one (radians (a - b))
  simp only [angle_distance]
  linarith

lemma angle_distance_le_four (a b : ℝ) : angle_distance a b ≤ 4 := by
  have h := Real.neg_one_le_cos (radians (a - b))
  simp only [angle_distance]
  linarith

lemma angle_distance_half_turn (a : ℝ) : angle_distance a (a + 180) = 4 := by
  simp only [angle_distance, radians]
  rw [show (a - (a + 180)) * Real.pi / 180 = -Real.pi by ring, Real.cos_neg, Real.cos_pi]
  ring

lemma meanD_nonneg (w : Window) (m : TurnClusterDef) : 0 ≤ meanD w m := by
  have h1 := angle_distance_nonneg w.omega2 (m.medoid_omega2 : ℝ)
  have h2 := angle_distance_nonneg w.phi2 (m.medoid_phi2 : ℝ)
  have h3 := angle_distance_nonneg w.psi2 (m.medoid_psi2 : ℝ)
  have h4 := angle_distance_nonneg w.omega3 (m.medoid_omega3 : ℝ)
  have h5 := angle_distance_nonneg w.phi3 (m.medoid_phi3 : ℝ)
  have h6 := angle_distance_nonneg w.psi3 (m.medoid_psi3 : ℝ)
  have h7 := angle_distance_nonneg w.omega4 (m.medoid_omega4 : ℝ)
  simp only [meanD]
  linarith

lemma meanD_le_four (w : Window) (m : TurnClusterDef) : meanD w m ≤ 4 := by
  have h1 := angle_distance_le_four w.omega2 (m.medoid_omega2 : ℝ)
  have h2 := angle_distance_le_four w.phi2 (m.medoid_phi2 : ℝ)
  have h3 := angle_distance_le_four w.psi2 (m.medoid_psi2 : ℝ)
  have h4 := angle_distance_le_four w.omega3 (m.medoid_omega3 : ℝ)
  have h5 := angle_distance_le_four w.phi3 (m.medoid_phi3 : ℝ)
  have h6 := angle_distance_le_four w.psi3 (m.medoid_psi3 : ℝ)
  have h7 := angle_distance_le_four w.omega4 (m.medoid_omega4 : ℝ)
  simp only [meanD]
  linarith

/-- Invariant of the classifier loop: either no cluster improves on the
incoming accumulator, or the result is the first cluster whose score beats
the accumulator and every later cluster only ties or worsens it. -/
lemma scanTurns_spec (w : Window) (lib : List (String × TurnClusterDef))
    (d : ℝ) (n : String) :
    (scanTurns w lib (d, n) = (d, n) ∧ ∀ p ∈ lib, d ≤ meanD w p.2) ∨
    (∃ ys nm m zs, lib = ys ++ (nm, m) :: zs ∧
      scanTurns w lib (d, n) = (meanD w m, nm) ∧ meanD w m < d ∧
      (∀ y ∈ ys, meanD w m < meanD w y.2) ∧
      (∀ z ∈ zs, meanD w m ≤ meanD w z.2)) := by
  induction lib generalizing d n with
  | nil => exact Or.inl ⟨rfl, by simp⟩
  | cons hd tl IH =>
    obtain ⟨n0, m0⟩ := hd
    by_cases h0 : meanD w m0 < d
    · rw [show scanTurns w ((n0, m0) :: tl) (d, n) = scanTurns w tl (meanD w m0, n0) by
        simp [scanTurns, h0]]
      rcases IH (meanD w m0) n0 with ⟨heq, hall⟩ |
        ⟨ys, nm, m, zs, hsplit, heq, hlt, hys, hzs⟩
      · refine Or.inr ⟨[], n0, m0, tl, by simp, ?_, h0, by simp, hall⟩
        rw [heq]
      · refine Or.inr ⟨(n0, m0) :: ys, nm, m, zs, by rw [hsplit]; rfl, heq,
          lt_trans hlt h0, ?_, hzs⟩
        intro y hy
        rcases List.mem_cons.1 hy with rfl | hy'
        · exact hlt
        · exact hys y hy'
    · rw [show scanTurns w ((n0, m0) :: tl) (d, n) = scanTurns w tl (d, n) by
        simp [scanTurns, h0]]
      rcases IH d n with ⟨heq, hall⟩ | ⟨ys, nm, m, zs, hsplit, heq, hlt, hys, hzs⟩
      · refine Or.inl ⟨heq, ?_⟩
        intro p hp
        rcases List.mem_cons.1 hp with rfl | hp'
        · exact not_lt.1 h0
        · exact hall p hp'
      · refine Or.inr ⟨(n0, m0) :: ys, nm, m, zs, by rw [hsplit]; rfl, heq, hlt, ?_, hzs⟩
        intro y hy
        rcases List.mem_cons.1 hy with rfl | hy'
        · exact lt_of_lt_of_le hlt (not_lt.1 h0)
        · exact hys y hy'

/-- The classifier result never exceeds the score of any library cluster. -/
lemma classify_le_meanD (w : Window) :
    ∀ p ∈ turnlibrary, (classify w).1 ≤ meanD w p.2 := by
  intro p hp
  rcases scanTurns_spec w turnlibrary 100 "" with ⟨heq, hall⟩ |
    ⟨ys, nm, m, zs, hsplit, heq, _, hys, hzs⟩
  · rw [classify, heq]
    exact hall p hp
  · rw [classify, heq]
    rw [hsplit] at hp
    rcases List.mem_append.1 hp with hy | hz
    · exact le_of_lt (hys p hy)
    · rcases List.mem_cons.1 hz with rfl | hz'
      · exact le_refl _
      · exact hzs p hz'

/-- The classifier result is a nonnegative score. -/
lemma classify_nonneg (w : Window) : 0 ≤ (classify w).1 := by
  rcases scanTurns_spec w turnlibrary 100 "" with ⟨heq, _⟩ |
    ⟨_, _, m, _, _, heq, _, _, _⟩
  · rw [classify, heq]; norm_num
  · rw [classify, heq]; exact meanD_nonneg w m

/-- The classifier always lands on an actual library cluster: the result is
the first cluster attaining the minimum score over the library. -/
lemma classify_first_argmin (w : Window) :
    ∃ ys nm m zs, turnlibrary = ys ++ (nm, m) :: zs ∧
      classify w = (meanD w m, nm) ∧
      (∀ y ∈ ys, meanD w m < meanD w y.2) := by
  rcases scanTurns_spec w turnlibrary 100 "" with ⟨_, hall⟩ |
    ⟨ys, nm, m, zs, hsplit, heq, _, hys, _⟩
  · exfalso
    have hmem : ("AD", (⟨"I", 184.88, -65.27, -23.52, 182.83, -98.73, -18.06,
        181.10⟩ : TurnClusterDef)) ∈ turnlibrary := by
      simp [turnlibrary, define_turn_library]
    have h100 := hall _ hmem
    have h4 := meanD_le_four w
      (⟨"I", 184.88, -65.27, -23.52, 182.83, -98.73, -18.06, 181.10⟩ : TurnClusterDef)
    linarith
  · exact ⟨ys, nm, m, zs, hsplit, by rw [classify, heq], hys⟩

/-- A cluster whose score is zero, while every differently-named cluster
scores strictly positive, is exactly what the classifier returns. -/
lemma classify_of_zero (w : Window) (n : String) (m : TurnClusterDef)
    (hmem : (n, m) ∈ turnlibrary) (hzero : meanD w m = 0)
    (hpos : ∀ n' m', (n', m') ∈ turnlibrary → n' ≠ n → 0 < meanD w m') :
    classify w = (0, n) := by
  obtain ⟨ys, nm, ms, zs, hsplit, heq, _⟩ := classify_first_argmin w
  have hmem' : (nm, ms) ∈ turnlibrary := by
    rw [hsplit]; exact List.mem_append.2 (Or.inr (List.mem_cons_self _ _))
  have hle : (classify w).1 ≤ 0 := hzero ▸ classify_le_meanD w (n, m) hmem
  have hge : 0 ≤ (classify w).1 := classify_nonneg w
  have hz : meanD w ms = 0 := by
    have : (classify w).1 = 0 := le_antisymm hle hge
    rw [heq] at this; exact this
  have hn : nm = n := by
    by_contra hne
    exact absurd hz (ne_of_gt (hpos nm ms hmem' hne))
  rw [heq, hz, hn]

/-- Two real angles that differ, but by less than a full turn, are at
positive circular distance: the cosine in `angle_distance` stays below 1. -/
lemma angle_distance_pos (a b : ℝ) (hne : a ≠ b) (habs : |a - b| < 360) :
    0 < angle_distance a b := by
  have hd : a - b ≠ 0 := sub_ne_zero.2 hne
  have hpi := Real.pi_pos
  have hxabs : |(a - b) * Real.pi / 180| < 2 * Real.pi := by
    rw [abs_div, abs_mul, abs_of_pos hpi, abs_of_pos (show (0:ℝ) < 180 by norm_num)]
    rw [div_lt_iff₀ (show (0:ℝ) < 180 by norm_num)]
    nlinarith
  have hx0 : (a - b) * Real.pi / 180 ≠ 0 :=
    div_ne_zero (mul_ne_zero hd Real.pi_ne_zero) (by norm_num)
  have hcos : Real.cos ((a - b) * Real.pi / 180) < 1 := by
    refine lt_of_le_of_ne (Real.cos_le_one _) (fun hc => hx0 ?_)
    exact (Real.cos_eq_one_iff_of_lt_of_lt (neg_lt_of_abs_lt hxabs)
      (lt_of_abs_lt hxabs)).1 hc
  simp only [angle_distance, radians]
  linarith

/-- The `medoid_omega2` column of the library, read off by computation. -/
lemma omega2_col : turnlibrary.map (fun p => p.2.medoid_omega2) =
    [(184.88 : ℚ), 178.69, 180.97, 177.14, 178.29, 181.51, 179.88, 177.42,
     184.32, 176.27, 182.57, 175.04, 178.53, 177.54, 183.55, 0.14, 188.70,
     11.10] := rfl

/-- No two library clusters share a `medoid_omega2` value. -/
lemma omega2_nodup : (turnlibrary.map (fun p => p.2.medoid_omega2)).Nodup := by
  rw [omega2_col]
  simp only [List.nodup_cons, List.mem_cons, List.not_mem_nil, List.nodup_nil]
  norm_num

/-- Every library `medoid_omega2` lies in `[0, 360)`. -/
lemma omega2_range : ∀ p ∈ turnlibrary,
    0 ≤ p.2.medoid_omega2 ∧ p.2.medoid_omega2 < 360 := by
  intro p hp
  fin_cases hp <;> norm_num

/-- Distinct members of the library have distinct `medoid_omega2`. -/
lemma omega2_ne {p q : String × TurnClusterDef} (hp : p ∈ turnlibrary)
    (hq : q ∈ turnlibrary) (hne : p ≠ q) :
    p.2.medoid_omega2 ≠ q.2.medoid_omega2 := by
  intro heq
  exact hne (List.inj_on_of_nodup_map omega2_nodup hp hq heq)

/-- Distinctly-named clusters of the library are at positive mean distance
from each other's medoid window. -/
lemma meanD_pos_of_other (n : String) (m : TurnClusterDef) (n' : String)
    (m' : TurnClusterDef) (hm : (n, m) ∈ turnlibrary)
    (hm' : (n', m') ∈ turnlibrary) (hne : n' ≠ n) :
    0 < meanD (windowOf m) m' := by
  have hx : ((n, m) : String × TurnClusterDef) ≠ (n', m') := by
    intro hcontra
    exact hne (congrArg Prod.fst hcontra).symm
  have hqne : m.medoid_omega2 ≠ m'.medoid_omega2 := omega2_ne hm hm' hx
  have hr1 := omega2_range (n, m) hm
  have hr2 := omega2_range (n', m') hm'
  have hrne : ((m.medoid_omega2 : ℝ)) ≠ (m'.medoid_omega2 : ℝ) := by
    exact_mod_cast hqne
  have hd1 : ((m.medoid_omega2 : ℝ)) < 360 := by
    have := hr1.2; exact_mod_cast this
  have hd2 : (0 : ℝ) ≤ (m.medoid_omega2 : ℝ) := by
    have := hr1.1; exact_mod_cast this
  have hd3 : ((m'.medoid_omega2 : ℝ)) < 360 := by
    have := hr2.2; exact_mod_cast this
  have hd4 : (0 : ℝ) ≤ (m'.medoid_omega2 : ℝ) := by
    have := hr2.1; exact_mod_cast this
  have habs : |(m.medoid_omega2 : ℝ) - (m'.medoid_omega2 : ℝ)| < 360 := by
    rw [abs_lt]; constructor <;> linarith
  have hpos := angle_distance_pos _ _ hrne habs
  have n2 := angle_distance_nonneg ((m.medoid_phi2 : ℝ)) ((m'.medoid_phi2 : ℝ))
  have n3 := angle_distance_nonneg ((m.medoid_psi2 : ℝ)) ((m'.medoid_psi2 : ℝ))
  have n4 := angle_distance_nonneg ((m.medoid_omega3 : ℝ)) ((m'.medoid_omega3 : ℝ))
  have n5 := angle_distance_nonneg ((m.medoid_phi3 : ℝ)) ((m'.medoid_phi3 : ℝ))
  have n6 := angle_distance_nonneg ((m.medoid_psi3 : ℝ)) ((m'.medoid_psi3 : ℝ))
  have n7 := angle_distance_nonneg ((m.medoid_omega4 : ℝ)) ((m'.medoid_omega4 : ℝ))
  simp only [meanD, windowOf]
  linarith

/-- A cluster's medoid window scores zero against the cluster itself. -/
lemma meanD_self (m : TurnClusterDef) : meanD (windowOf m) m = 0 := by
  simp [meanD, windowOf, angle_distance_self]

/-- The first library cluster, used as a concrete witness input. -/
def AD_cluster : TurnClusterDef :=
  ⟨"I", 184.88, -65.27, -23.52, 182.83, -98.73, -18.06, 181.10⟩

lemma AD_mem : ("AD", AD_cluster) ∈ turnlibrary := by
  rw [turnlibrary, define_turn_library]
  exact List.mem_cons_self _ _

/-- C2: the per-angle distance is symmetric, vanishes on equal angles,
equals 4 on angles 180 degrees apart, and always lies in `[0, 4]`. -/
theorem angle_distance_metric_props (a b : ℝ) :
    angle_distance a b = angle_distance b a ∧
    angle_distance a a = 0 ∧
    angle_distance a (a + 180) = 4 ∧
    0 ≤ angle_distance a b ∧ angle_distance a b ≤ 4 :=
  ⟨angle_distance_comm a b, angle_distance_self a, angle_distance_half_turn a,
   angle_distance_nonneg a b, angle_distance_le_four a b⟩

/-- C6: `find_theta_in_degrees(D)` raises exactly when `D < 0 or D > 4`,
and for `D` in `[0, 4]` returns `degrees(acos(1 - D/2))` without error. -/
theorem find_theta_domain (D : ℝ) :
    (find_theta_in_degrees D = Except.error thetaErrMsg ↔ (D < 0 ∨ D > 4)) ∧
    (0 ≤ D → D ≤ 4 → find_theta_in_degrees D =
      Except.ok (degrees (Real.arccos (1 - D / 2)))) := by
  constructor
  · constructor
    · intro h
      by_contra hc
      simp [find_theta_in_degrees, hc] at h
    · intro h
      simp [find_theta_in_degrees, h]
  · intro h1 h2
    have hc : ¬(D < 0 ∨ D > 4) := by
      push_neg
      constructor <;> linarith
    simp [find_theta_in_degrees, hc]

/-- Witness for C6 at `D = 1`. -/
theorem find_theta_domain_witness :
    find_theta_in_degrees 1 = Except.ok (degrees (Real.arccos (1 - 1 / 2))) :=
  (find_theta_domain 1).2 (by norm_num) (by norm_num)

/-- C8: each cluster's own medoid window scores zero against that cluster,
every differently-named cluster scores strictly positive against it, and
the classifier selects exactly that cluster with distance zero. -/
theorem turnlibrary_self_consistency (n : String) (m : TurnClusterDef)
    (hmem : (n, m) ∈ turnlibrary) :
    meanD (windowOf m) m = 0 ∧
    (∀ n' m', (n', m') ∈ turnlibrary → n' ≠ n → 0 < meanD (windowOf m) m') ∧
    classify (windowOf m) = (0, n) := by
  have hz := meanD_self m
  have hp : ∀ n' m', (n', m') ∈ turnlibrary → n' ≠ n →
      0 < meanD (windowOf m) m' :=
    fun n' m' hm' hne => meanD_pos_of_other n m n' m' hmem hm' hne
  exact ⟨hz, hp, classify_of_zero (windowOf m) n m hmem hz hp⟩

/-- Witness for C8 at the first cluster `AD`. -/
theorem turnlibrary_self_consistency_witness :
    meanD (windowOf AD_cluster) AD_cluster = 0 ∧
    classify (windowOf AD_cluster) = (0, "AD") :=
  ⟨(turnlibrary_self_consistency "AD" AD_cluster AD_mem).1,
   (turnlibrary_self_consistency "AD" AD_cluster AD_mem).2.2⟩

/-- The classifier on the `AD` medoid window: shared witness ingredient. -/
lemma classify_AD : classify (windowOf AD_cluster) = (0, "AD") :=
  classify_of_zero (windowOf AD_cluster) "AD" AD_cluster AD_mem
    (meanD_self AD_cluster)
    (fun n' m' hm' hne => meanD_pos_of_other "AD" AD_cluster n' m' AD_mem hm' hne)

lemma classifyEmit_AD : classifyEmit (windowOf AD_cluster) = some ((0 : ℝ), "AD") := by
  rw [classifyEmit, classify_AD]
  norm_num [TURN_DIST_CUTOFF]

/-- C1: the classifier iterates the whole 18-entry library scoring each
cluster by the mean of the seven per-angle distances, returns the first
cluster attaining the minimum mean distance, and emits a result exactly
when that minimum is at most the cutoff `0.2359`; otherwise it emits
nothing (and, being a total function, raises no error). -/
theorem classifier_nearest_centroid (w : Window) :
    turnlibrary.length = 18 ∧
    (∀ m : TurnClusterDef, meanD w m =
      (angle_distance w.omega2 (m.medoid_omega2 : ℝ) +
       angle_distance w.phi2 (m.medoid_phi2 : ℝ) +
       angle_distance w.psi2 (m.medoid_psi2 : ℝ) +
       angle_distance w.omega3 (m.medoid_omega3 : ℝ) +
       angle_distance w.phi3 (m.medoid_phi3 : ℝ) +
       angle_distance w.psi3 (m.medoid_psi3 : ℝ) +
       angle_distance w.omega4 (m.medoid_omega4 : ℝ)) / 7) ∧
    (∃ ys nm m zs, turnlibrary = ys ++ (nm, m) :: zs ∧
      classify w = (meanD w m, nm) ∧
      (∀ y ∈ ys, meanD w m < meanD w y.2) ∧
      (∀ p ∈ turnlibrary, (classify w).1 ≤ meanD w p.2)) ∧
    (classifyEmit w = some (classify w) ↔ (classify w).1 ≤ TURN_DIST_CUTOFF) ∧
    (TURN_DIST_CUTOFF < (classify w).1 → classifyEmit w = none) := by
  refine ⟨rfl, fun m => rfl, ?_, ?_, ?_⟩
  · obtain ⟨ys, nm, m, zs, hsplit, heq, hys⟩ := classify_first_argmin w
    exact ⟨ys, nm, m, zs, hsplit, heq, hys, classify_le_meanD w⟩
  · unfold classifyEmit
    split_ifs with h <;> simp [h]
  · intro h
    unfold classifyEmit
    rw [if_neg (not_le.2 h)]

/-- C10: any result the classifier emits carries a minimum mean distance in
`[0, 0.2359]`, inside the `[0, 4]` domain of the reporting transform, so
`find_theta_in_degrees` takes its non-error branch on it. -/
theorem accepted_minD_in_theta_domain (w : Window) (r : ℝ × String)
    (h : classifyEmit w = some r) :
    0 ≤ r.1 ∧ r.1 ≤ TURN_DIST_CUTOFF ∧ r.1 ≤ 4 ∧
    find_theta_in_degrees r.1 =
      Except.ok (degrees (Real.arccos (1 - r.1 / 2))) := by
  unfold classifyEmit at h
  split_ifs at h with hc
  · obtain rfl : classify w = r := Option.some_inj.1 h
    have h0 : 0 ≤ (classify w).1 := classify_nonneg w
    have h4 : (classify w).1 ≤ 4 := by
      have : TURN_DIST_CUTOFF ≤ 4 := by norm_num [TURN_DIST_CUTOFF]
      linarith
    refine ⟨h0, hc, h4, ?_⟩
    have hcond : ¬((classify w).1 < 0 ∨ (classify w).1 > 4) := by
      push_neg
      constructor <;> linarith
    simp [find_theta_in_degrees, hcond]

/-- Witness for C10: the `AD` medoid window is accepted with distance 0. -/
theorem accepted_minD_in_theta_domain_witness :
    0 ≤ (((0 : ℝ), "AD")).1 ∧ (((0 : ℝ), "AD")).1 ≤ TURN_DIST_CUTOFF ∧
    (((0 : ℝ), "AD")).1 ≤ 4 ∧
    find_theta_in_degrees (((0 : ℝ), "AD")).1 =
      Except.ok (degrees (Real.arccos (1 - (((0 : ℝ), "AD")).1 / 2))) :=
  accepted_minD_in_theta_domain (windowOf AD_cluster) ((0 : ℝ), "AD") classifyEmit_AD

/-- C5: each dihedral computation returns the sentinel `999.0` exactly when
an atom is missing or the two residues are not numbered consecutively, and
otherwise the rounded signed dihedral over the documented atom quadruple;
in particular a one-residue numbering gap always yields the sentinel. -/
theorem dihedral_sentinel_contract (dih : Dih) (r s : RawResidue) :
    (∀ pc cn ca cc, r.atomC = some pc → s.atomN = some cn →
      s.atomCA = some ca → s.atomC = some cc → s.seqnum = r.seqnum + 1 →
      compute_phi dih r s = round6 (degrees (dih pc cn ca cc))) ∧
    (¬(r.atomC.isSome ∧ s.atomN.isSome ∧ s.atomCA.isSome ∧ s.atomC.isSome ∧
        s.seqnum = r.seqnum + 1) → compute_phi dih r s = 999) ∧
    (∀ cn ca cc nn, r.atomN = some cn → r.atomCA = some ca →
      r.atomC = some cc → s.atomN = some nn → s.seqnum = r.seqnum + 1 →
      compute_psi dih r s = round6 (degrees (dih cn ca cc nn))) ∧
    (¬(r.atomN.isSome ∧ r.atomCA.isSome ∧ r.atomC.isSome ∧ s.atomN.isSome ∧
        s.seqnum = r.seqnum + 1) → compute_psi dih r s = 999) ∧
    (∀ pca pc cn ca, r.atomCA = some pca → r.atomC = some pc →
      s.atomN = some cn → s.atomCA = some ca → s.seqnum = r.seqnum + 1 →
      compute_omega dih r s = round6 (degrees (dih pca pc cn ca))) ∧
    (¬(r.atomCA.isSome ∧ r.atomC.isSome ∧ s.atomN.isSome ∧ s.atomCA.isSome ∧
        s.seqnum = r.seqnum + 1) → compute_omega dih r s = 999) ∧
    (s.seqnum = r.seqnum + 2 → compute_phi dih r s = 999 ∧
      compute_psi dih r s = 999 ∧ compute_omega dih r s = 999) := by
  have hphi_pos : ∀ pc cn ca cc, r.atomC = some pc → s.atomN = some cn →
      s.atomCA = some ca → s.atomC = some cc → s.seqnum = r.seqnum + 1 →
      compute_phi dih r s = round6 (degrees (dih pc cn ca cc)) := by
    intro pc cn ca cc h1 h2 h3 h4 h5
    simp [compute_phi, h1, h2, h3, h4, h5]
  have hphi_neg : ¬(r.atomC.isSome ∧ s.atomN.isSome ∧ s.atomCA.isSome ∧
      s.atomC.isSome ∧ s.seqnum = r.seqnum + 1) → compute_phi dih r s = 999 := by
    intro h
    rcases h1 : r.atomC with _ | pc
    · simp [compute_phi, h1]
    rcases h2 : s.atomN with _ | cn
    · simp [compute_phi, h1, h2]
    rcases h3 : s.atomCA with _ | ca
    · simp [compute_phi, h1, h2, h3]
    rcases h4 : s.atomC with _ | cc
    · simp [compute_phi, h1, h2, h3, h4]
    have h5 : ¬ s.seqnum = r.seqnum + 1 := by
      simp [h1, h2, h3, h4] at h
      exact h
    simp [compute_phi, h1, h2, h3, h4, h5]
  have hpsi_pos : ∀ cn ca cc nn, r.atomN = some cn → r.atomCA = some ca →
      r.atomC = some cc → s.atomN = some nn → s.seqnum = r.seqnum + 1 →
      compute_psi dih r s = round6 (degrees (dih cn ca cc nn)) := by
    intro cn ca cc nn h1 h2 h3 h4 h5
    simp [compute_psi, h1, h2, h3, h4, h5]
  have hpsi_neg : ¬(r.atomN.isSome ∧ r.atomCA.isSome ∧ r.atomC.isSome ∧
      s.atomN.isSome ∧ s.seqnum = r.seqnum + 1) → compute_psi dih r s = 999 := by
    intro h
    rcases h1 : r.atomN with _ | cn
    · simp [compute_psi, h1]
    rcases h2 : r.atomCA with _ | ca
    · simp [compute_psi, h1, h2]
    rcases h3 : r.atomC with _ | cc
    · simp [compute_psi, h1, h2, h3]
    rcases h4 : s.atomN with _ | nn
    · simp [compute_psi, h1, h2, h3, h4]
    have h5 : ¬ s.seqnum = r.seqnum + 1 := by
      simp [h1, h2, h3, h4] at h
      exact h
    simp [compute_psi, h1, h2, h3, h4, h5]
  have homega_pos : ∀ pca pc cn ca, r.atomCA = some pca → r.atomC = some pc →
      s.atomN = some cn → s.atomCA = some ca → s.seqnum = r.seqnum + 1 →
      compute_omega dih r s = round6 (degrees (dih pca pc cn ca)) := by
    intro pca pc cn ca h1 h2 h3 h4 h5
    simp [compute_omega, h1, h2, h3, h4, h5]
  have homega_neg : ¬(r.atomCA.isSome ∧ r.atomC.isSome ∧ s.atomN.isSome ∧
      s.atomCA.isSome ∧ s.seqnum = r.seqnum + 1) → compute_omega dih r s = 999 := by
    intro h
    rcases h1 : r.atomCA with _ | pca
    · simp [compute_omega, h1]
    rcases h2 : r.atomC with _ | pc
    · simp [compute_omega, h1, h2]
    rcases h3 : s.atomN with _ | cn
    · simp [compute_omega, h1, h2, h3]
    rcases h4 : s.atomCA with _ | ca
    · simp [compute_omega, h1, h2, h3, h4]
    have h5 : ¬ s.seqnum = r.seqnum + 1 := by
      simp [h1, h2, h3, h4] at h
      exact h
    simp [compute_omega, h1, h2, h3, h4, h5]
  refine ⟨hphi_pos, hphi_neg, hpsi_pos, hpsi_neg, homega_pos, homega_neg, ?_⟩
  intro hgap
  have hne : ¬ s.seqnum = r.seqnum + 1 := by omega
  exact ⟨hphi_neg (fun hp => hne hp.2.2.2.2),
         hpsi_neg (fun hp => hne hp.2.2.2.2),
         homega_neg (fun hp => hne hp.2.2.2.2)⟩

/-- A constant stand-in for the external dihedral routine, for witnesses. -/
noncomputable def dihZero : Dih := fun _ _ _ _ => 0

/-- A fully-resolved residue at sequence number 1 and one at number 3:
array-adjacent but with a one-residue numbering gap. -/
noncomputable def gapRes1 : RawResidue :=
  ⟨1, some ((0 : ℝ), 0, 0), some ((0 : ℝ), 0, 0), some ((0 : ℝ), 0, 0), 'C', ['.']⟩

noncomputable def gapRes3 : RawResidue :=
  ⟨3, some ((0 : ℝ), 0, 0), some ((0 : ℝ), 0, 0), some ((0 : ℝ), 0, 0), 'C', ['.']⟩

/-- Witness for C5: the numbering gap forces all three sentinels. -/
theorem dihedral_sentinel_contract_witness :
    compute_phi dihZero gapRes1 gapRes3 = 999 ∧
    compute_psi dihZero gapRes1 gapRes3 = 999 ∧
    compute_omega dihZero gapRes1 gapRes3 = 999 :=
  (dihedral_sentinel_contract dihZero gapRes1 gapRes3).2.2.2.2.2.2 (by norm_num [gapRes1, gapRes3])

/-- Eliminating an accepted window: the gate passed, the classifier score
cleared the cutoff, and the output's residue-number fields are as printed. -/
lemma processWindow_some_elim (r1 r2 r3 r4 : ResidueRecord) (out : OutRec)
    (h : processWindow r1 r2 r3 r4 = some out) :
    gateCodeOrder r1 r2 r3 r4 ∧
    (classify (windowOfRecs r1 r2 r3 r4)).1 ≤ TURN_DIST_CUTOFF ∧
    out.resnum1 = r1.resnum ∧ out.resnum4 = r1.resnum + 3 ∧
    out.minD = (classify (windowOfRecs r1 r2 r3 r4)).1 ∧
    out.minturn = (classify (windowOfRecs r1 r2 r3 r4)).2 := by
  rcases hv1 : r1.CAcoor with _ | v1
  · simp only [processWindow, hv1] at h
    exact Option.noConfusion h
  rcases hv4 : r4.CAcoor with _ | v4
  · simp only [processWindow, hv1, hv4] at h
    exact Option.noConfusion h
  simp only [processWindow, hv1, hv4] at h
  have c1 : ¬([r1.dssp_ss, r2.dssp_ss, r3.dssp_ss, r4.dssp_ss] = ['H', 'G', 'G', 'G']) := by
    intro hc
    rw [if_pos hc] at h
    exact Option.noConfusion h
  rw [if_neg c1] at h
  have c2 : ¬([r1.dssp_ss, r2.dssp_ss, r3.dssp_ss, r4.dssp_ss] = ['G', 'G', 'G', 'H']) := by
    intro hc
    rw [if_pos hc] at h
    exact Option.noConfusion h
  rw [if_neg c2] at h
  have c3 : ¬([r1.dssp_ss, r2.dssp_ss, r3.dssp_ss, r4.dssp_ss] = ['G', 'G', 'G', 'G']) := by
    intro hc
    rw [if_pos hc] at h
    exact Option.noConfusion h
  rw [if_neg c3] at h
  have c4 : ¬(r2.dssp_ss = 'H' ∨ r2.dssp_ss = 'E') := by
    intro hc
    rw [if_pos hc] at h
    exact Option.noConfusion h
  rw [if_neg c4] at h
  have c5 : ¬(r3.dssp_ss = 'H' ∨ r3.dssp_ss = 'E') := by
    intro hc
    rw [if_pos hc] at h
    exact Option.noConfusion h
  rw [if_neg c5] at h
  have c6 : ¬((List.take 3 [r1.dssp_ss, r2.dssp_ss, r3.dssp_ss, r4.dssp_ss] = ['G', 'G', 'G'] ∨ List.drop 1 [r1.dssp_ss, r2.dssp_ss, r3.dssp_ss, r4.dssp_ss] = ['G', 'G', 'G']) ∧ '3' ∉ r1.three10 ++ r2.three10 ++ r3.three10 ++ r4.three10) := by
    intro hc
    rw [if_pos hc] at h
    exact Option.noConfusion h
  rw [if_neg c6] at h
  have c7 : ¬(r2.omega = 999) := by
    intro hc
    rw [if_pos hc] at h
    exact Option.noConfusion h
  rw [if_neg c7] at h
  have c8 : ¬(r2.phi = 999) := by
    intro hc
    rw [if_pos hc] at h
    exact Option.noConfusion h
  rw [if_neg c8] at h
  have c9 : ¬(r2.psi = 999) := by
    intro hc
    rw [if_pos hc] at h
    exact Option.noConfusion h
  rw [if_neg c9] at h
  have c10 : ¬(r3.omega = 999) := by
    intro hc
    rw [if_pos hc] at h
    exact Option.noConfusion h
  rw [if_neg c10] at h
  have c11 : ¬(r3.phi = 999) := by
    intro hc
    rw [if_pos hc] at h
    exact Option.noConfusion h
  rw [if_neg c11] at h
  have c12 : ¬(r3.psi = 999) := by
    intro hc
    rw [if_pos hc] at h
    exact Option.noConfusion h
  rw [if_neg c12] at h
  have c13 : ¬(r4.omega = 999) := by
    intro hc
    rw [if_pos hc] at h
    exact Option.noConfusion h
  rw [if_neg c13] at h
  have c14 : ¬(norm3 (vsub v1 v4) > 7) := by
    intro hc
    rw [if_pos hc] at h
    exact Option.noConfusion h
  rw [if_neg c14] at h
  have c15 : (classify ⟨r2.omega, r2.phi, r2.psi, r3.omega, r3.phi, r3.psi,
      r4.omega⟩).1 ≤ TURN_DIST_CUTOFF := by
    by_contra hc
    rw [if_neg hc] at h
    exact Option.noConfusion h
  rw [if_pos c15] at h
  have hX := Option.some_inj.1 h
  refine ⟨⟨v1, v4, hv1, hv4, c1, c2, c3, c4, c5, c6, c7, c8, c9, c10, c11, c12,
    c13, c14⟩, c15, ?_, ?_, ?_, ?_⟩ <;> rw [← hX] <;> rfl

/-- A window that fails the gate is silently skipped. -/
lemma processWindow_none_of_not_gate (r1 r2 r3 r4 : ResidueRecord)
    (hng : ¬ gateCodeOrder r1 r2 r3 r4) : processWindow r1 r2 r3 r4 = none := by
  rcases hres : processWindow r1 r2 r3 r4 with _ | out
  · rfl
  · exact absurd (processWindow_some_elim r1 r2 r3 r4 out hres).1 hng

/-- C3: the gate with its checks in the order the spec lists them (distance
second) accepts exactly the windows the implemented order (distance last)
accepts, and a window rejected by the gate produces no output. -/
theorem gate_check_order_irrelevant (r1 r2 r3 r4 : ResidueRecord) :
    (gateSpecOrder r1 r2 r3 r4 ↔ gateCodeOrder r1 r2 r3 r4) ∧
    (¬ gateCodeOrder r1 r2 r3 r4 → processWindow r1 r2 r3 r4 = none) := by
  refine ⟨⟨?_, ?_⟩, processWindow_none_of_not_gate r1 r2 r3 r4⟩
  · rintro ⟨v1, v4, h1, h2, hd, a1, a2, a3, b1, b2, g, s1, s2, s3, s4, s5, s6, s7⟩
    exact ⟨v1, v4, h1, h2, a1, a2, a3, b1, b2, g, s1, s2, s3, s4, s5, s6, s7,
      not_lt.2 hd⟩
  · rintro ⟨v1, v4, h1, h2, a1, a2, a3, b1, b2, g, s1, s2, s3, s4, s5, s6, s7, hd⟩
    exact ⟨v1, v4, h1, h2, not_lt.1 hd, a1, a2, a3, b1, b2, g, s1, s2, s3, s4,
      s5, s6, s7⟩

/-- A residue record with no resolved CA atom, for witnesses. -/
noncomputable def noCARec : ResidueRecord := ⟨1, 0, 0, 0, 'C', ['.'], none⟩

/-- Witness for C3: a window missing its first CA fails both gate orders and
is skipped. -/
theorem gate_check_order_irrelevant_witness :
    processWindow noCARec noCARec noCARec noCARec = none :=
  (gate_check_order_irrelevant noCARec noCARec noCARec noCARec).2
    (by rintro ⟨v1, v4, h1, -⟩; exact Option.noConfusion h1)

/-- C4: for a window whose secondary-structure string starts or ends with
"GGG" and is not one of the three outright-rejected strings, the gate
accepts exactly when the character `3` occurs somewhere in the concatenated
`helix_3_10` marker fields (and the remaining checks pass); lacking the
marker the window is rejected with no output. -/
theorem ggg_disambiguation (r1 r2 r3 r4 : ResidueRecord)
    (hedge : List.take 3 [r1.dssp_ss, r2.dssp_ss, r3.dssp_ss, r4.dssp_ss] =
        ['G', 'G', 'G'] ∨
      List.drop 1 [r1.dssp_ss, r2.dssp_ss, r3.dssp_ss, r4.dssp_ss] =
        ['G', 'G', 'G'])
    (hout : [r1.dssp_ss, r2.dssp_ss, r3.dssp_ss, r4.dssp_ss] ≠ ['H', 'G', 'G', 'G'] ∧
      [r1.dssp_ss, r2.dssp_ss, r3.dssp_ss, r4.dssp_ss] ≠ ['G', 'G', 'G', 'H'] ∧
      [r1.dssp_ss, r2.dssp_ss, r3.dssp_ss, r4.dssp_ss] ≠ ['G', 'G', 'G', 'G']) :
    (gateCodeOrder r1 r2 r3 r4 ↔
      ('3' ∈ r1.three10 ++ r2.three10 ++ r3.three10 ++ r4.three10 ∧
       ∃ vector1 vector4, r1.CAcoor = some vector1 ∧ r4.CAcoor = some vector4 ∧
         ¬(r2.dssp_ss = 'H' ∨ r2.dssp_ss = 'E') ∧
         ¬(r3.dssp_ss = 'H' ∨ r3.dssp_ss = 'E') ∧
         r2.omega ≠ 999 ∧ r2.phi ≠ 999 ∧ r2.psi ≠ 999 ∧ r3.omega ≠ 999 ∧
         r3.phi ≠ 999 ∧ r3.psi ≠ 999 ∧ r4.omega ≠ 999 ∧
         ¬(norm3 (vsub vector1 vector4) > 7))) ∧
    ('3' ∉ r1.three10 ++ r2.three10 ++ r3.three10 ++ r4.three10 →
      processWindow r1 r2 r3 r4 = none) := by
  constructor
  · constructor
    · rintro ⟨v1, v4, hv1, hv4, -, -, -, hm2, hm3, hg, s1, s2, s3, s4, s5, s6, s7, hd⟩
      have h3 : '3' ∈ r1.three10 ++ r2.three10 ++ r3.three10 ++ r4.three10 := by
        by_contra hno
        exact hg ⟨hedge, hno⟩
      exact ⟨h3, v1, v4, hv1, hv4, hm2, hm3, s1, s2, s3, s4, s5, s6, s7, hd⟩
    · rintro ⟨h3, v1, v4, hv1, hv4, hm2, hm3, s1, s2, s3, s4, s5, s6, s7, hd⟩
      exact ⟨v1, v4, hv1, hv4, hout.1, hout.2.1, hout.2.2, hm2, hm3,
        fun hc => hc.2 h3, s1, s2, s3, s4, s5, s6, s7, hd⟩
  · intro hno
    refine processWindow_none_of_not_gate r1 r2 r3 r4 ?_
    rintro ⟨v1, v4, -, -, -, -, -, -, -, hg, -⟩
    exact hg ⟨hedge, hno⟩

/-- Residue records forming the secondary-structure string "GGGC", with
`helix_3_10` markers lacking the character `3`, for witnesses. -/
noncomputable def gggRecG : ResidueRecord := ⟨1, 0, 0, 0, 'G', ['.'], none⟩

noncomputable def gggRecC : ResidueRecord := ⟨4, 0, 0, 0, 'C', ['.'], none⟩

/-- Witness for C4: the "GGGC" window without the `3` marker is rejected. -/
theorem ggg_disambiguation_witness :
    processWindow gggRecG gggRecG gggRecG gggRecC = none :=
  (ggg_disambiguation gggRecG gggRecG gggRecG gggRecC (by decide)
    (by decide)).2 (by decide)

/-- C7: a window any of whose seven required dihedrals is the sentinel
`999.0` fails the gate, so no output is produced and the classifier's
distance arithmetic (which sits strictly after the sentinel checks) is
never reached for it. -/
theorem sentinel_never_classified (r1 r2 r3 r4 : ResidueRecord)
    (h : r2.omega = 999 ∨ r2.phi = 999 ∨ r2.psi = 999 ∨ r3.omega = 999 ∨
      r3.phi = 999 ∨ r3.psi = 999 ∨ r4.omega = 999) :
    ¬ gateCodeOrder r1 r2 r3 r4 ∧ processWindow r1 r2 r3 r4 = none := by
  have hng : ¬ gateCodeOrder r1 r2 r3 r4 := by
    rintro ⟨v1, v4, -, -, -, -, -, -, -, -, s1, s2, s3, s4, s5, s6, s7, -⟩
    rcases h with h | h | h | h | h | h | h
    exacts [s1 h, s2 h, s3 h, s4 h, s5 h, s6 h, s7 h]
  exact ⟨hng, processWindow_none_of_not_gate r1 r2 r3 r4 hng⟩

/-- A residue record whose omega is the sentinel, for witnesses. -/
noncomputable def sentinelRec : ResidueRecord := ⟨2, 999, 0, 0, 'C', ['.'], none⟩

/-- Witness for C7: a window with sentinel omega2 yields no output. -/
theorem sentinel_never_classified_witness :
    processWindow noCARec sentinelRec noCARec noCARec = none :=
  (sentinel_never_classified noCARec sentinelRec noCARec noCARec
    (Or.inl rfl)).2

/-- A non-sentinel phi forces consecutive sequence numbers. -/
lemma compute_phi_consecutive (dih : Dih) (p c : RawResidue)
    (h : compute_phi dih p c ≠ 999) : c.seqnum = p.seqnum + 1 := by
  by_contra hne
  apply h
  rcases h1 : p.atomC with _ | pc
  · simp [compute_phi, h1]
  rcases h2 : c.atomN with _ | cn
  · simp [compute_phi, h1, h2]
  rcases h3 : c.atomCA with _ | ca
  · simp [compute_phi, h1, h2, h3]
  rcases h4 : c.atomC with _ | cc
  · simp [compute_phi, h1, h2, h3, h4]
  simp [compute_phi, h1, h2, h3, h4, hne]

/-- A non-sentinel omega forces consecutive sequence numbers. -/
lemma compute_omega_consecutive (dih : Dih) (p c : RawResidue)
    (h : compute_omega dih p c ≠ 999) : c.seqnum = p.seqnum + 1 := by
  by_contra hne
  apply h
  rcases h1 : p.atomCA with _ | pca
  · simp [compute_omega, h1]
  rcases h2 : p.atomC with _ | pc
  · simp [compute_omega, h1, h2]
  rcases h3 : c.atomN with _ | cn
  · simp [compute_omega, h1, h2, h3]
  rcases h4 : c.atomCA with _ | ca
  · simp [compute_omega, h1, h2, h3, h4]
  simp [compute_omega, h1, h2, h3, h4, hne]

/-- In-range table access yields the `getD` element. -/
lemma table_get (rs : List RawResidue) (i : ℕ) (hi : i < rs.length) :
    rs.get? i = some (rs.getD i default) := by
  cases hx : rs.get? i with
  | none => exact absurd (List.get?_eq_none.1 hx) (by omega)
  | some a =>
    rw [List.getD_eq_getElem?_getD, ← List.get?_eq_getElem?, hx]
    rfl

/-- A non-sentinel phi entry at table row `i+1` forces row `i+1`'s residue
to be numbered one past row `i`'s. -/
lemma entryPhi_consecutive (dih : Dih) (rs : List RawResidue) (i : ℕ)
    (hi : i + 1 < rs.length) (h : entryPhi dih rs (i + 1) ≠ 999) :
    (rs.getD (i + 1) default).seqnum = (rs.getD i default).seqnum + 1 := by
  have ha := table_get rs i (by omega)
  have hb := table_get rs (i + 1) hi
  rw [entryPhi, if_neg (Nat.succ_ne_zero i), Nat.add_sub_cancel, ha, hb] at h
  exact compute_phi_consecutive dih _ _ h

/-- A non-sentinel omega entry at table row `i+1` forces row `i+1`'s residue
to be numbered one past row `i`'s. -/
lemma entryOmega_consecutive (dih : Dih) (rs : List RawResidue) (i : ℕ)
    (hi : i + 1 < rs.length) (h : entryOmega dih rs (i + 1) ≠ 999) :
    (rs.getD (i + 1) default).seqnum = (rs.getD i default).seqnum + 1 := by
  have ha := table_get rs i (by omega)
  have hb := table_get rs (i + 1) hi
  rw [entryOmega, if_neg (Nat.succ_ne_zero i), Nat.add_sub_cancel, ha, hb] at h
  exact compute_omega_consecutive dih _ _ h

/-- C9: for any accepted window at table rows `i..i+3`, the printed last
residue number is the printed first residue number plus 3, and it really is
the author sequence number of the window's fourth residue: the gate's
non-sentinel requirements on phi2, omega3 and omega4 force the four
residues to be numbered consecutively. -/
theorem output_resnum_consecutive (dih : Dih) (rs : List RawResidue) (i : ℕ)
    (hlen : i + 3 < rs.length) (out : OutRec)
    (h : processWindow (tableRec dih rs i) (tableRec dih rs (i + 1))
      (tableRec dih rs (i + 2)) (tableRec dih rs (i + 3)) = some out) :
    out.resnum4 = out.resnum1 + 3 ∧
    out.resnum1 = (rs.getD i default).seqnum ∧
    (rs.getD (i + 3) default).seqnum = (rs.getD i default).seqnum + 3 := by
  obtain ⟨hgate, -, hr1, hr4, -, -⟩ := processWindow_some_elim _ _ _ _ out h
  obtain ⟨v1, v4, -, -, -, -, -, -, -, -, -, hphi2, -, homega3, -, -, homega4, -⟩ :=
    hgate
  have hphi2' : entryPhi dih rs (i + 1) ≠ 999 := hphi2
  have homega3' : entryOmega dih rs (i + 2) ≠ 999 := homega3
  have homega4' : entryOmega dih rs (i + 3) ≠ 999 := homega4
  have e1 := entryPhi_consecutive dih rs i (by omega) hphi2'
  have e2 := entryOmega_consecutive dih rs (i + 1) (by omega) homega3'
  have e3 := entryOmega_consecutive dih rs (i + 2) (by omega) homega4'
  have hseq : (rs.getD (i + 3) default).seqnum = (rs.getD i default).seqnum + 3 := by
    rw [show i + 3 = i + 2 + 1 by omega] at e3 ⊢
    rw [show i + 2 = i + 1 + 1 by omega] at e2 e3 ⊢
    omega
  refine ⟨?_, ?_, hseq⟩
  · rw [hr4, hr1]
  · rw [hr1]
    rfl

lemma degrees_radians (x : ℝ) : degrees (radians x) = x := by
  rw [degrees, radians]
  field_simp

lemma round6_id (x : ℝ) (n : ℤ) (h : x * 1000000 = (n : ℝ)) : round6 x = x := by
  rw [round6, h, round_intCast, div_eq_iff (by norm_num : (1000000 : ℝ) ≠ 0)]
  exact h.symm

/-- Four fully-resolved consecutive residues (numbers 1..4), coil secondary
structure, atoms at distinct x-coordinates so the dihedral stub below can
recognise each atom quadruple by its first atom. -/
noncomputable def res0W : RawResidue :=
  ⟨1, some ((1 : ℝ), 0, 0), some ((2 : ℝ), 0, 0), some ((3 : ℝ), 0, 0), 'C', ['.']⟩

noncomputable def res1W : RawResidue :=
  ⟨2, some ((11 : ℝ), 0, 0), some ((12 : ℝ), 0, 0), some ((13 : ℝ), 0, 0), 'C', ['.']⟩

noncomputable def res2W : RawResidue :=
  ⟨3, some ((21 : ℝ), 0, 0), some ((22 : ℝ), 0, 0), some ((23 : ℝ), 0, 0), 'C', ['.']⟩

noncomputable def res3W : RawResidue :=
  ⟨4, some ((31 : ℝ), 0, 0), some ((2 : ℝ), 0, 0), some ((33 : ℝ), 0, 0), 'C', ['.']⟩

noncomputable def rsW : List RawResidue := [res0W, res1W, res2W, res3W]

/-- A dihedral stub returning, per recognised first atom, the radian value
whose degree equivalent is the corresponding `AD` medoid coordinate. -/
noncomputable def dihW : Dih := fun a _ _ _ =>
  if a.1 = 2 then radians 184.88
  else if a.1 = 3 then radians (-65.27)
  else if a.1 = 11 then radians (-23.52)
  else if a.1 = 12 then radians 182.83
  else if a.1 = 13 then radians (-98.73)
  else if a.1 = 21 then radians (-18.06)
  else if a.1 = 22 then radians 181.10
  else 0

lemma dihW_k2 (b c d : V3) : dihW ((2 : ℝ), 0, 0) b c d = radians 184.88 := by
  norm_num [dihW]

lemma dihW_k3 (b c d : V3) : dihW ((3 : ℝ), 0, 0) b c d = radians (-65.27) := by
  norm_num [dihW]

lemma dihW_k11 (b c d : V3) : dihW ((11 : ℝ), 0, 0) b c d = radians (-23.52) := by
  norm_num [dihW]

lemma dihW_k12 (b c d : V3) : dihW ((12 : ℝ), 0, 0) b c d = radians 182.83 := by
  norm_num [dihW]

lemma dihW_k13 (b c d : V3) : dihW ((13 : ℝ), 0, 0) b c d = radians (-98.73) := by
  norm_num [dihW]

lemma dihW_k21 (b c d : V3) : dihW ((21 : ℝ), 0, 0) b c d = radians (-18.06) := by
  norm_num [dihW]

lemma dihW_k22 (b c d : V3) : dihW ((22 : ℝ), 0, 0) b c d = radians 181.10 := by
  norm_num [dihW]

lemma w9_omega2 : (tableRec dihW rsW 1).omega = 184.88 := by
  show round6 (degrees (dihW ((2 : ℝ), 0, 0) ((3 : ℝ), 0, 0) ((11 : ℝ), 0, 0)
    ((12 : ℝ), 0, 0))) = 184.88
  rw [dihW_k2, degrees_radians]
  exact round6_id _ 184880000 (by norm_num)

lemma w9_phi2 : (tableRec dihW rsW 1).phi = -65.27 := by
  show round6 (degrees (dihW ((3 : ℝ), 0, 0) ((11 : ℝ), 0, 0) ((12 : ℝ), 0, 0)
    ((13 : ℝ), 0, 0))) = -65.27
  rw [dihW_k3, degrees_radians]
  exact round6_id _ (-65270000) (by norm_num)

lemma w9_psi2 : (tableRec dihW rsW 1).psi = -23.52 := by
  show round6 (degrees (dihW ((11 : ℝ), 0, 0) ((12 : ℝ), 0, 0) ((13 : ℝ), 0, 0)
    ((21 : ℝ), 0, 0))) = -23.52
  rw [dihW_k11, degrees_radians]
  exact round6_id _ (-23520000) (by norm_num)

lemma w9_omega3 : (tableRec dihW rsW 2).omega = 182.83 := by
  show round6 (degrees (dihW ((12 : ℝ), 0, 0) ((13 : ℝ), 0, 0) ((21 : ℝ), 0, 0)
    ((22 : ℝ), 0, 0))) = 182.83
  rw [dihW_k12, degrees_radians]
  exact round6_id _ 182830000 (by norm_num)

lemma w9_phi3 : (tableRec dihW rsW 2).phi = -98.73 := by
  show round6 (degrees (dihW ((13 : ℝ), 0, 0) ((21 : ℝ), 0, 0) ((22 : ℝ), 0, 0)
    ((23 : ℝ), 0, 0))) = -98.73
  rw [dihW_k13, degrees_radians]
  exact round6_id _ (-98730000) (by norm_num)

lemma w9_psi3 : (tableRec dihW rsW 2).psi = -18.06 := by
  show round6 (degrees (dihW ((21 : ℝ), 0, 0) ((22 : ℝ), 0, 0) ((23 : ℝ), 0, 0)
    ((31 : ℝ), 0, 0))) = -18.06
  rw [dihW_k21, degrees_radians]
  exact round6_id _ (-18060000) (by norm_num)

lemma w9_omega4 : (tableRec dihW rsW 3).omega = 181.10 := by
  show round6 (degrees (dihW ((22 : ℝ), 0, 0) ((23 : ℝ), 0, 0) ((31 : ℝ), 0, 0)
    ((2 : ℝ), 0, 0))) = 181.10
  rw [dihW_k22, degrees_radians]
  exact round6_id _ 181100000 (by norm_num)

/-- The output record the scan prints for the witness chain. -/
noncomputable def outW : OutRec :=
  ⟨1, 4, "AD", prevNameOf "AD", 0, find_theta_in_degrees 0, 0,
    windowOf AD_cluster⟩

/-- Evaluating the scan body on the witness chain: the `AD` medoid window
is accepted and printed with residue numbers 1 and 4. -/
lemma procW :
    processWindow (tableRec dihW rsW 0) (tableRec dihW rsW 1)
      (tableRec dihW rsW 2) (tableRec dihW rsW 3) = some outW := by
  have hCA0 : (tableRec dihW rsW 0).CAcoor = some ((2 : ℝ), 0, 0) := rfl
  have hCA3 : (tableRec dihW rsW 3).CAcoor = some ((2 : ℝ), 0, 0) := rfl
  have hss0 : (tableRec dihW rsW 0).dssp_ss = 'C' := rfl
  have hss1 : (tableRec dihW rsW 1).dssp_ss = 'C' := rfl
  have hss2 : (tableRec dihW rsW 2).dssp_ss = 'C' := rfl
  have hss3 : (tableRec dihW rsW 3).dssp_ss = 'C' := rfl
  have ht0 : (tableRec dihW rsW 0).three10 = ['.'] := rfl
  have ht1 : (tableRec dihW rsW 1).three10 = ['.'] := rfl
  have ht2 : (tableRec dihW rsW 2).three10 = ['.'] := rfl
  have ht3 : (tableRec dihW rsW 3).three10 = ['.'] := rfl
  have hres0 : (tableRec dihW rsW 0).resnum = 1 := rfl
  have hdist : norm3 (vsub ((2 : ℝ), 0, 0) ((2 : ℝ), 0, 0)) = 0 := by
    simp [norm3, vsub]
  have hwin : (⟨(184.88 : ℝ), -65.27, -23.52, 182.83, -98.73, -18.06,
      181.10⟩ : Window) = windowOf AD_cluster := by
    simp only [windowOf, AD_cluster]
    norm_num
  simp only [processWindow, hCA0, hCA3]
  rw [hss0, hss1, hss2, hss3, ht0, ht1, ht2, ht3, w9_omega2, w9_phi2, w9_psi2,
    w9_omega3, w9_phi3, w9_psi3, w9_omega4, hres0]
  rw [if_neg (by decide : ¬(['C', 'C', 'C', 'C'] = ['H', 'G', 'G', 'G'])),
    if_neg (by decide : ¬(['C', 'C', 'C', 'C'] = ['G', 'G', 'G', 'H'])),
    if_neg (by decide : ¬(['C', 'C', 'C', 'C'] = ['G', 'G', 'G', 'G'])),
    if_neg (by decide : ¬('C' = 'H' ∨ 'C' = 'E')),
    if_neg (by decide : ¬('C' = 'H' ∨ 'C' = 'E')),
    if_neg (by decide : ¬((List.take 3 ['C', 'C', 'C', 'C'] = ['G', 'G', 'G'] ∨
      List.drop 1 ['C', 'C', 'C', 'C'] = ['G', 'G', 'G']) ∧
      '3' ∉ ['.'] ++ ['.'] ++ ['.'] ++ ['.'])),
    if_neg (by norm_num : ¬((184.88 : ℝ) = 999)),
    if_neg (by norm_num : ¬((-65.27 : ℝ) = 999)),
    if_neg (by norm_num : ¬((-23.52 : ℝ) = 999)),
    if_neg (by norm_num : ¬((182.83 : ℝ) = 999)),
    if_neg (by norm_num : ¬((-98.73 : ℝ) = 999)),
    if_neg (by norm_num : ¬((-18.06 : ℝ) = 999)),
    if_neg (by norm_num : ¬((181.10 : ℝ) = 999)),
    if_neg (by rw [hdist]; norm_num :
      ¬(norm3 (vsub ((2 : ℝ), 0, 0) ((2 : ℝ), 0, 0)) > 7))]
  rw [hwin, classify_AD]
  rw [if_pos (by norm_num [TURN_DIST_CUTOFF] :
    (((0 : ℝ), "AD")).1 ≤ TURN_DIST_CUTOFF)]
  rw [hdist]
  rfl

/-- Witness for C9: on the witness chain the accepted window's printed
numbers are 1 and 4, and residue 4 is indeed numbered three past residue 1. -/
theorem output_resnum_consecutive_witness :
    outW.resnum4 = outW.resnum1 + 3 ∧
    outW.resnum1 = (rsW.getD 0 default).seqnum ∧
    (rsW.getD 3 default).seqnum = (rsW.getD 0 default).seqnum + 3 :=
  output_resnum_consecutive dihW rsW 0 (by norm_num [rsW]) outW procW

/-- Witness for C1: the emission rule instantiated at the `AD` medoid
window, whose minimum mean distance is 0. -/
theorem classifier_nearest_centroid_witness :
    classifyEmit (windowOf AD_cluster) = some (classify (windowOf AD_cluster)) ↔
    (classify (windowOf AD_cluster)).1 ≤ TURN_DIST_CUTOFF :=
  (classifier_nearest_centroid (windowOf AD_cluster)).2.2.2.1
